import Mathlib

/-!
Verification development for the ramBLe output-comparison tooling.

The definitions below are a shallow embedding of the comparison code in
`mnets/compare_lemontree.py` and `scripts/compare.py`:

* Python dictionaries parsed from whitespace-delimited files are embedded as
  association lists `List (key × value)` (a JSON object / `dict` has unique
  keys; where a proof needs that invariant it is an explicit hypothesis);
  `dict.pop(k, None)` is `dictPop`.
* Floating-point scores are embedded as exact rationals `ℚ`; `TOLERANCE`
  is the module-level default `1e-6`, and since `--tolerance` rebinds a
  process-wide global read by every comparator, the tolerance is threaded
  through each comparator as an explicit parameter.
* The `print('ERROR: ...')` / `print('WARNING: ...')` diagnostics are
  embedded as lists of log events, each with its printed severity.
* File reading is external to the comparison logic: each comparator takes
  the parsed content of its two input files.
-/

set_option autoImplicit false

namespace RamBLe

/-- Severity of a printed diagnostic line: the source prints every line with
an explicit `ERROR:` or `WARNING:` prefix. -/
inductive Severity where
  | warning
  | error
deriving DecidableEq

section Dict

variable {α : Type}

/-- Embedding of `d.pop(k, None)` on a Python dict represented as an
association list: returns the value stored at `k` (if any) and the
remaining entries. -/
def dictPop (k : String) : List (String × α) → Option α × List (String × α)
  | [] => (none, [])
  | (k', v) :: rest =>
    if k' = k then (some v, rest)
    else
      let r := dictPop k rest
      (r.1, (k', v) :: r.2)

/-- Embedding of `d.pop(k, None)` keyed by a pair of strings, as used for
the `(regulator, module)` keys of `compare_regulators`. -/
def dictPop2 (k : String × String) : List ((String × String) × α) → Option α × List ((String × String) × α)
  | [] => (none, [])
  | (k', v) :: rest =>
    if k' = k then (some v, rest)
    else
      let r := dictPop2 k rest
      (r.1, (k', v) :: r.2)

end Dict

/-- Diagnostic lines printed by `compare_clusters`
(`compare_lemontree.py`, lines 88, 90, 94); all three are `ERROR:` lines. -/
inductive ClusterLog where
  | notFound (var : String)
  | clusterMismatch (var cluster sc : String)
  | missingSome
deriving DecidableEq

/-- Printed severity of each `compare_clusters` diagnostic. -/
def ClusterLog.severity : ClusterLog → Severity := fun _ => .error

/-- Loop body of `compare_clusters` (lines 85-91): iterate the first
partition's items, popping each from the second; a key absent from the
second only prints an error (`match` is left unchanged by the source),
a differing cluster label prints an error and clears `match`.
Returns (the final `match` flag of the loop, the leftover entries of the
second dict, the error lines printed by the loop). -/
def compare_clusters_loop :
    List (String × String) → List (String × String) →
    Bool × List (String × String) × List ClusterLog
  | [], second => (true, second, [])
  | (var, cluster) :: rest, second =>
    let p := dictPop var second
    let r := compare_clusters_loop rest p.2
    match p.1 with
    | none => (r.1, r.2.1, .notFound var :: r.2.2)
    | some sc =>
      if cluster = sc then r
      else (false, r.2.1, .clusterMismatch var cluster sc :: r.2.2)

/-- Embedding of `compare_clusters` (lines 80-95): after the loop, any
leftover entries in the second dict clear `match` and print one more
error line. Returns the `match` result and the printed error lines. -/
def compare_clusters (first second : List (String × String)) :
    Bool × List ClusterLog :=
  let r := compare_clusters_loop first second
  if 0 < r.2.1.length then (false, r.2.2 ++ [.missingSome]) else (r.1, r.2.2)

/-- Module-level default tolerance `TOLERANCE = 1e-6`
(`compare_lemontree.py`, line 23). -/
def TOLERANCE : ℚ := 1 / 1000000

/-- Branch condition of `compare_regulators` line 136:
`abs(score - ls) >= TOLERANCE` decides a score mismatch. -/
def score_mismatch (score ls tol : ℚ) : Bool := tol ≤ |score - ls|

/-- Diagnostic lines printed by `compare_regulators`
(lines 135, 137, 141); all three are `ERROR:` lines. -/
inductive RegLog where
  | notRegulator (reg mod : String)
  | scoreMismatch (reg mod : String) (score ls : ℚ)
  | missingSome
deriving DecidableEq

/-- Printed severity of each `compare_regulators` diagnostic. -/
def RegLog.severity : RegLog → Severity := fun _ => .error

/-- Loop body of `compare_regulators` (lines 132-138): iterate the first
file's `(regulator, module) -> score` entries, popping each from the
second; an absent pair only prints an error (`match` is left unchanged
by the source), a score differing by at least the tolerance prints an
error and clears `match`. -/
def compare_regulators_loop (tol : ℚ) :
    List ((String × String) × ℚ) → List ((String × String) × ℚ) →
    Bool × List ((String × String) × ℚ) × List RegLog
  | [], second => (true, second, [])
  | (vc, score) :: rest, second =>
    let p := dictPop2 vc second
    let r := compare_regulators_loop tol rest p.2
    match p.1 with
    | none => (r.1, r.2.1, .notRegulator vc.1 vc.2 :: r.2.2)
    | some ls =>
      if score_mismatch score ls tol then
        (false, r.2.1, .scoreMismatch vc.1 vc.2 score ls :: r.2.2)
      else r

/-- Embedding of `compare_regulators` (lines 128-142): after the loop, any
leftover entries in the second dict clear `match` and print one more
error line. -/
def compare_regulators (first second : List ((String × String) × ℚ)) (tol : ℚ) :
    Bool × List RegLog :=
  let r := compare_regulators_loop tol first second
  if 0 < r.2.1.length then (false, r.2.2 ++ [.missingSome]) else (r.1, r.2.2)

/-- Value of a list of decimal digit characters. -/
def digitsVal (cs : List Char) : ℕ :=
  cs.foldl (fun a c => 10 * a + (c.toNat - 48)) 0

/-- Split a character list into its leading run of decimal digits and the
rest. -/
def spanDigits : List Char → List Char × List Char
  | [] => ([], [])
  | c :: cs =>
    if c.isDigit then
      let r := spanDigits cs
      (c :: r.1, r.2)
    else ([], c :: cs)

/-- Consume an optional leading sign, returning `-1` for `-`, `1`
otherwise. -/
def parseSign : List Char → ℤ × List Char
  | '+' :: cs => (1, cs)
  | '-' :: cs => (-1, cs)
  | cs => (1, cs)

/-- Tokenized decimal float literal: sign, integer-part digit value,
fraction digit value and digit count, and exponent (zero when absent). -/
structure FloatTok where
  sgn : ℤ
  ip : ℕ
  fp : ℕ
  fpLen : ℕ
  ex : ℤ
deriving DecidableEq

/-- Tokenizer for the strings accepted by Python's `float()`: an optional
sign, decimal digits with an optional fractional part (at least one
digit overall), and an optional `e`/`E` exponent; any other string
raises `ValueError`, i.e. returns `none`. Special tokens (`inf`,
`nan`), embedded underscores and surrounding whitespace are outside the
model. -/
def pyFloatTok (s : String) : Option FloatTok :=
  let p0 := parseSign s.toList
  let p1 := spanDigits p0.2
  let p2 :=
    match p1.2 with
    | '.' :: rest => spanDigits rest
    | cs => ([], cs)
  if p1.1.isEmpty && p2.1.isEmpty then none
  else
    match p2.2 with
    | [] => some ⟨p0.1, digitsVal p1.1, digitsVal p2.1, p2.1.length, 0⟩
    | e :: rest =>
      if e = 'e' || e = 'E' then
        let q0 := parseSign rest
        let q1 := spanDigits q0.2
        if q1.1.isEmpty || !q1.2.isEmpty then none
        else some ⟨p0.1, digitsVal p1.1, digitsVal p2.1, p2.1.length, q0.1 * (digitsVal q1.1 : ℤ)⟩
      else none

/-- Exact rational value of a tokenized float literal. -/
def FloatTok.val (t : FloatTok) : ℚ :=
  (t.sgn : ℚ) * ((t.ip : ℚ) + (t.fp : ℚ) / (10 : ℚ) ^ t.fpLen) * (10 : ℚ) ^ t.ex

/-- Model of Python's `float()` applied to an attribute or score token,
evaluated exactly in `ℚ`. -/
def pyFloat (s : String) : Option ℚ := (pyFloatTok s).map FloatTok.val

/-- Embedding of the attribute-value check of `compare_xml_trees`
(lines 163-170): the source computes `abs(float(a1[1]) - float(a2[1]))`
under a `try`; if both values parse as floats the mismatch condition is
`abs difference >= TOLERANCE`, while a `ValueError` from either parse
falls back to exact string inequality. Returns `true` when the values
MISmatch. -/
def attrValueMismatch (v1 v2 : String) (tol : ℚ) : Bool :=
  match pyFloat v1, pyFloat v2 with
  | some x, some y => tol ≤ |x - y|
  | _, _ => v1 != v2

/-- Attribute loop of `compare_xml_trees` (lines 161-173): pairs are
zipped positionally; a pair whose keys differ is a mismatch, otherwise
the values are checked by `attrValueMismatch`. The loop's `match` flag
is the conjunction over all zipped pairs. -/
def compare_attrs (tol : ℚ) (a1 a2 : List (String × String)) : Bool :=
  (a1.zip a2).all fun p =>
    if p.1.1 = p.2.1 then !attrValueMismatch p.1.2 p.2.2 tol else false

/-- Embedding of an `xml.etree.ElementTree` element: a tag, the
attribute dict in its encoding order, and the ordered children. -/
inductive XMLElem where
  | node (tag : String) (attrib : List (String × String)) (children : List XMLElem)

/-- Tag of an element. -/
def XMLElem.tag : XMLElem → String
  | .node t _ _ => t

/-- Attribute list of an element. -/
def XMLElem.attrib : XMLElem → List (String × String)
  | .node _ a _ => a

/-- Children of an element. -/
def XMLElem.children : XMLElem → List XMLElem
  | .node _ _ c => c

mutual

/-- Embedding of `compare_xml_trees` (lines 153-179): tag mismatch,
attribute-count mismatch, any attribute mismatch, and child-count
mismatch each return `False` for this subtree; otherwise the result is
the conjunction of the positionally zipped children's comparisons. -/
def compare_xml_trees (tol : ℚ) : XMLElem → XMLElem → Bool
  | .node t1 a1 c1, .node t2 a2 c2 =>
    if t1 ≠ t2 then false
    else if a1.length ≠ a2.length then false
    else if !compare_attrs tol a1 a2 then false
    else if c1.length ≠ c2.length then false
    else compare_children tol c1 c2

/-- Conjunction of `compare_xml_trees` over positionally zipped children
(line 179: `all([...  for c1, c2 in zip(e1, e2)])`). -/
def compare_children (tol : ℚ) : List XMLElem → List XMLElem → Bool
  | [], _ => true
  | _ :: _, [] => true
  | x :: xs, y :: ys => compare_xml_trees tol x y && compare_children tol xs ys

end

/-! Embedding of `scripts/compare.py`: a `pydot` graph is its node-name
list and its directed-edge list (an edge is the `(source, destination)`
pair of names); `get_node` / `get_edge` return the list of matching
nodes / edges. -/

/-- A parsed `pydot` graph: named nodes and directed edges. -/
structure PyGraph where
  nodes : List String
  edges : List (String × String)

/-- Embedding of `pydot`'s `get_node(name)`: all nodes with this name. -/
def PyGraph.get_node (g : PyGraph) (name : String) : List String :=
  g.nodes.filter (· = name)

/-- Embedding of `pydot`'s `get_edge(edge)`: all edges equal to this
`(source, destination)` pair. -/
def PyGraph.get_edge (g : PyGraph) (e : String × String) : List (String × String) :=
  g.edges.filter (· = e)

/-- Node-presence check of `compare` (`compare.py`, lines 61-66): the
count of first-graph nodes whose name finds no node in the second graph
(`if not second.get_node(...)`). Advisory only: it is printed, not part
of the returned triple. -/
def nodeMismatches (first second : PyGraph) : ℕ :=
  (first.nodes.filter fun n => (second.get_node n).isEmpty).length

/-- Embedding of `compare` (`compare.py`, lines 56-82): each edge of the
first graph counts as a true positive when `second.get_edge(edge)`
returns exactly one edge, else as a false negative; false positives are
the second graph's edge count minus the true positives (computed in `ℤ`,
as the Python subtraction can go negative on duplicated edges). -/
def compare (first second : PyGraph) : ℕ × ℤ × ℕ :=
  let tp := (first.edges.filter fun e => (second.get_edge e).length = 1).length
  let fn := (first.edges.filter fun e => ¬(second.get_edge e).length = 1).length
  let fp : ℤ := (second.edges.length : ℤ) - (tp : ℤ)
  (tp, fp, fn)

/-! Embedding of the dispatcher in `compare_lemontree.py`: `configs.json`
is an ordered mapping from task name to a configuration object; the
`output_file` entry popped from each configuration is `none` when the
declared value is absent or falsy (the source then stores `None`), and
the remaining entries are the task's parameters. -/

/-- One task's configuration from `configs.json`, after popping
`output_file` (line 69/71): the declared output file (`none` when falsy)
and the remaining key/value parameters. -/
structure TaskConfig where
  output_file : Option String
  params : List (String × String)

/-- Embedding of `os.path.join` for the two-component joins the script
performs. -/
def pathJoin (dir file : String) : String := dir ++ "/" ++ file

/-- Diagnostic lines printed by `compare_configs` (lines 48, 50, 52),
`read_task_outputs` (line 76) and the skip branch of `main` (line 211);
all are `WARNING:` lines. -/
inductive Warning where
  | secondMissingKey (task name : String)
  | configMismatch (task name firstval secondval : String)
  | firstMissingKey (task name : String)
  | taskMismatch (t1 t2 : String)
  | skippedTask (task : String)
deriving DecidableEq

/-- Printed severity of each dispatcher diagnostic. -/
def Warning.severity : Warning → Severity := fun _ => .warning

/-- Loop body of `compare_configs` (lines 45-50): pop each first-side key
from the second-side configs, warning on a missing key or a differing
value. Returns the warnings and the leftover second-side entries. -/
def compare_configs_loop (task : String) :
    List (String × String) → List (String × String) →
    List Warning × List (String × String)
  | [], second => ([], second)
  | (name, firstval) :: rest, second =>
    let p := dictPop name second
    let r := compare_configs_loop task rest p.2
    match p.1 with
    | none => (.secondMissingKey task name :: r.1, r.2)
    | some secondval =>
      if firstval = secondval then r
      else (.configMismatch task name firstval secondval :: r.1, r.2)

/-- Embedding of `compare_configs` (lines 44-52): after the loop, each
leftover second-side key prints one more warning. -/
def compare_configs (task : String) (firstconfigs secondconfigs : List (String × String)) :
    List Warning :=
  let r := compare_configs_loop task firstconfigs secondconfigs
  r.1 ++ r.2.map fun p => .firstMissingKey task p.1

/-- Embedding of `read_task_outputs` (lines 55-77): the two config
mappings are zipped positionally (`zip` truncates to the shorter); a
pair with equal task names contributes `(task, first output path,
second output path)` to the task outputs, joining each declared
`output_file` onto its directory, plus the config-comparison warnings;
a pair with differing names only prints a warning. -/
def read_task_outputs (firstdir seconddir : String)
    (firstconfigs secondconfigs : List (String × TaskConfig)) :
    List (String × Option String × Option String) × List Warning :=
  (firstconfigs.zip secondconfigs).foldl
    (fun acc p =>
      if p.1.1 = p.2.1 then
        let task := p.1.1
        let firstout := p.1.2.output_file.map (pathJoin firstdir)
        let secondout := p.2.2.output_file.map (pathJoin seconddir)
        (acc.1 ++ [(task, firstout, secondout)],
         acc.2 ++ compare_configs task p.1.2.params p.2.2.params)
      else (acc.1, acc.2 ++ [.taskMismatch p.1.1 p.2.1]))
    ([], [])

/-- Dispatch of one task in `main` (lines 209-218), parameterised by the
three file-level comparison functions the dispatcher calls
(`compare_ganesh`, `compare_consensus`, `compare_modules` applied to the
two output paths): a task with either output path missing is skipped and
leaves `match` unchanged, as does a task name outside the three known
stages. -/
def run_task (cg cc cm : String → String → Bool)
    (task : String) (first second : Option String) : Bool :=
  match first, second with
  | some f, some s =>
    if task = "ganesh" then cg f s
    else if task = "tight_clusters" then cc f s
    else if task = "regulators" then cm f s
    else true
  | _, _ => true

/-- Verdict accumulation of `main` (lines 206-219): `match` starts `True`
and is `&=`-folded over every task of the manifest. -/
def main_loop (cg cc cm : String → String → Bool)
    (outputs : List (String × Option String × Option String)) : Bool :=
  outputs.all fun e => run_task cg cc cm e.1 e.2.1 e.2.2

/-- Skip warnings printed by `main` (lines 210-211): one per task whose
first or second output path is `None`. -/
def skip_warnings (outputs : List (String × Option String × Option String)) :
    List Warning :=
  (outputs.filter fun e => e.2.1.isNone || e.2.2.isNone).map fun e => .skippedTask e.1

/-- Message of the final `assert` of `main` (line 220). -/
def assertMessage : String := "Mismatches found in the output files"

/-- Embedding of the exit contract of `main` (line 220): `assert match`
raises (the process fails) exactly when the accumulated verdict is
false. -/
def main_asserts (cg cc cm : String → String → Bool)
    (outputs : List (String × Option String × Option String)) : Except String Unit :=
  if main_loop cg cc cm outputs then .ok () else .error assertMessage

/-!  Theorems. -/

/-- C1: the claim states that a reference item absent from the candidate
forces `ok = false` even when all shared items match and there are no
extras. The code violates this: on reference `{g1: A, g2: B}` against
candidate `{g1: A}`, `compare_clusters` prints the `ERROR:` line for the
missing item `g2` but leaves `match` untouched and returns `True`. -/
theorem c1_missing_item_code_eval :
    compare_clusters [("g1", "A"), ("g2", "B")] [("g1", "A")] =
      (true, [ClusterLog.notFound "g2"]) ∧
    ClusterLog.severity (ClusterLog.notFound "g2") = Severity.error := by
  decide

/-- C2: the claim states that a reference `(subject, group)` pair absent
from the candidate makes the Scored-Assignment Comparator return a
non-ok result. The code violates this: on a reference with pairs
`(R, M1)` and `(R, M2)` against a candidate holding only `(R, M1)` with
an identical score, `compare_regulators` prints the `ERROR:` line for
the missing pair but leaves `match` untouched and returns `True`. -/
theorem c2_missing_pair_code_eval :
    compare_regulators [(("R", "M1"), 1 / 2), (("R", "M2"), 3 / 4)]
        [(("R", "M1"), 1 / 2)] TOLERANCE =
      (true, [RegLog.notRegulator "R" "M2"]) ∧
    RegLog.severity (RegLog.notRegulator "R" "M2") = Severity.error := by
  refine ⟨?_, rfl⟩
  norm_num [compare_regulators, compare_regulators_loop, dictPop2, score_mismatch,
    TOLERANCE]

/-- C3 counterexample: the claim states that candidate-only extras leave
`ok = true` and are reported at warning severity; but on reference
`{g1: A}` against candidate `{g1: A, g2: B}` — zero mismatches, zero
missing items (the loop prints nothing) — `compare_clusters` returns
`False`, and its leftover report is an `ERROR:` line. -/
theorem c3_extra_items_counterexample :
    (compare_clusters_loop [("g1", "A")] [("g1", "A"), ("g2", "B")]).2.2 = [] ∧
    compare_clusters [("g1", "A")] [("g1", "A"), ("g2", "B")] =
      (false, [ClusterLog.missingSome]) ∧
    ClusterLog.severity ClusterLog.missingSome = Severity.error := by
  decide

/-- C3 (amended): for every pair of partitions with zero label mismatches
and zero missing reference items (the comparison loop prints no error
line), leftover candidate-only extras make `compare_clusters` return
`False`, reporting them with a single ERROR-severity line. -/
theorem c3_extra_items_fail_amended (first second : List (String × String))
    (hlog : (compare_clusters_loop first second).2.2 = [])
    (hlo : 0 < (compare_clusters_loop first second).2.1.length) :
    compare_clusters first second = (false, [ClusterLog.missingSome]) ∧
      ClusterLog.severity ClusterLog.missingSome = Severity.error := by
  refine ⟨?_, rfl⟩
  simp [compare_clusters, hlo, hlog]

/-- C3 witness: the amended theorem applied to the concrete partitions of
the counterexample. -/
theorem c3_extra_items_fail_amended_witness :
    compare_clusters [("g1", "A")] [("g1", "A"), ("g2", "B")] =
      (false, [ClusterLog.missingSome]) ∧
    ClusterLog.severity ClusterLog.missingSome = Severity.error :=
  c3_extra_items_fail_amended _ _ (by decide) (by decide)

/-- Evaluation of the float model on the token `1`. -/
theorem pyFloat_one : pyFloat "1" = some 1 := by
  simp [pyFloat, show pyFloatTok "1" = some ⟨1, 1, 0, 0, 0⟩ from by decide, FloatTok.val]

/-- Evaluation of the float model on the token `2`. -/
theorem pyFloat_two : pyFloat "2" = some 2 := by
  simp [pyFloat, show pyFloatTok "2" = some ⟨1, 2, 0, 0, 0⟩ from by decide, FloatTok.val]

/-- Evaluation of the float model on the non-numeric token `A`. -/
theorem pyFloat_A : pyFloat "A" = none := by
  simp [pyFloat, show pyFloatTok "A" = none from by decide]

/-- C7: the score comparison of `compare_regulators` treats two scores as
equal exactly when their absolute difference is strictly below the
tolerance: the default is `1e-6`, a difference of exactly the tolerance
is a mismatch, a strictly smaller difference is a match, and on a
single shared pair the comparator returns ok exactly when the scores
match. -/
theorem c7_tolerance_strict_inequality :
    TOLERANCE = 1 / 1000000 ∧
    (∀ a b tol : ℚ, score_mismatch a b tol = false ↔ |a - b| < tol) ∧
    (∀ a b tol : ℚ, |a - b| = tol → score_mismatch a b tol = true) ∧
    (∀ a b tol : ℚ, |a - b| < tol → score_mismatch a b tol = false) ∧
    (∀ k : String × String, ∀ s ls tol : ℚ,
      (compare_regulators [(k, s)] [(k, ls)] tol).1 = !score_mismatch s ls tol) := by
  refine ⟨rfl, ?_, ?_, ?_, ?_⟩
  · intro a b tol
    simp [score_mismatch, not_le]
  · intro a b tol h
    simp [score_mismatch, h]
  · intro a b tol h
    have hx : ¬tol ≤ |a - b| := not_le.mpr h
    simp [score_mismatch, hx]
  · intro k s ls tol
    cases h : score_mismatch s ls tol <;>
      simp [compare_regulators, compare_regulators_loop, dictPop2, h]

/-- C7 witness: the boundary cases at concrete scores, obtained from the
theorem. -/
theorem c7_tolerance_strict_inequality_witness :
    score_mismatch 0 1 1 = true ∧ score_mismatch 0 0 1 = false :=
  ⟨c7_tolerance_strict_inequality.2.2.1 0 1 1 (by simp),
   c7_tolerance_strict_inequality.2.2.2.1 0 0 1 (by simp)⟩

/-- C8: in the tree comparator's attribute check, when the keys at one
ordinal position agree, the two values are compared numerically with
absolute tolerance when both parse as floats and as exact strings
otherwise; textually identical values always compare as equal (for a
positive tolerance), and the attribute loop on a single shared key is
exactly the value check. -/
theorem c8_attr_value_comparison :
    (∀ (v1 v2 : String) (tol x y : ℚ), pyFloat v1 = some x → pyFloat v2 = some y →
      (attrValueMismatch v1 v2 tol = false ↔ |x - y| < tol)) ∧
    (∀ (v1 v2 : String) (tol : ℚ), pyFloat v1 = none ∨ pyFloat v2 = none →
      (attrValueMismatch v1 v2 tol = false ↔ v1 = v2)) ∧
    (∀ (v : String) (tol : ℚ), 0 < tol → attrValueMismatch v v tol = false) ∧
    (∀ (k v1 v2 : String) (tol : ℚ),
      compare_attrs tol [(k, v1)] [(k, v2)] = !attrValueMismatch v1 v2 tol) := by
  refine ⟨?_, ?_, ?_, ?_⟩
  · intro v1 v2 tol x y h1 h2
    simp [attrValueMismatch, h1, h2, not_le]
  · intro v1 v2 tol h
    rcases h with h | h
    · simp [attrValueMismatch, h]
    · cases h1 : pyFloat v1 <;> simp [attrValueMismatch, h, h1]
  · intro v tol h
    cases h1 : pyFloat v
    · simp [attrValueMismatch, h1]
    · have hx : ¬tol ≤ (0 : ℚ) := not_le.mpr h
      simp [attrValueMismatch, h1, sub_self, abs_zero, hx]
  · intro k v1 v2 tol
    simp [compare_attrs]

/-- C8 witness: the value check at concrete attribute values, obtained
from the theorem: both `1` and `2` parse as floats and are compared
with tolerance `2`; the non-numeric token `A` falls back to string
comparison; a textually identical token is equal. -/
theorem c8_attr_value_comparison_witness :
    (attrValueMismatch "1" "2" 2 = false ↔ |(1 : ℚ) - 2| < 2) ∧
    (attrValueMismatch "A" "A" 1 = false ↔ "A" = "A") ∧
    attrValueMismatch "cat" "cat" 1 = false :=
  ⟨c8_attr_value_comparison.1 "1" "2" 2 1 2 pyFloat_one pyFloat_two,
   c8_attr_value_comparison.2.1 "A" "A" 1 (Or.inl pyFloat_A),
   c8_attr_value_comparison.2.2.1 "cat" 1 one_pos⟩

/-- In a duplicate-free list, the entries equal to `e` number exactly one
iff `e` is present. -/
theorem filter_eq_length_eq_one {α : Type} [DecidableEq α] (e : α) :
    ∀ l : List α, l.Nodup → ((l.filter (· = e)).length = 1 ↔ e ∈ l) := by
  intro l
  induction l with
  | nil => simp
  | cons x xs ih =>
    intro h
    rcases List.nodup_cons.mp h with ⟨hx, hxs⟩
    by_cases hxe : x = e
    · subst hxe
      have hnil : xs.filter (· = x) = [] := by
        rw [List.filter_eq_nil_iff]
        intro a ha
        simp only [decide_eq_true_eq]
        intro hax
        exact hx (hax ▸ ha)
      simp [List.filter_cons, hnil]
    · simp [List.filter_cons, hxe, ih hxs, Ne.symm hxe]

/-- Reference graph of the worked example: edges `(A,B)` and `(B,C)`. -/
def gRef : PyGraph := ⟨["A", "B", "C"], [("A", "B"), ("B", "C")]⟩

/-- Candidate graph of the worked example: edges `(A,B)` and `(C,D)`. -/
def gCand : PyGraph := ⟨["A", "B", "C", "D"], [("A", "B"), ("C", "D")]⟩

/-- C5: on a candidate with duplicate-free edges, `compare` returns
exactly (the count of reference edges present in the candidate, the
candidate's edge count minus that count, the count of reference edges
absent from the candidate); on the worked example it returns
`(1, 1, 1)`. -/
theorem c5_graph_triple :
    (∀ first second : PyGraph, second.edges.Nodup →
      compare first second =
        ((first.edges.filter fun e => decide (e ∈ second.edges)).length,
         (second.edges.length : ℤ) -
           ((first.edges.filter fun e => decide (e ∈ second.edges)).length : ℤ),
         (first.edges.filter fun e => decide (e ∉ second.edges)).length)) ∧
    compare gRef gCand = (1, 1, 1) := by
  constructor
  · intro first second h
    have h1 : (first.edges.filter fun e => decide ((second.get_edge e).length = 1))
        = first.edges.filter fun e => decide (e ∈ second.edges) := by
      apply List.filter_congr
      intro a _
      exact decide_eq_decide.mpr (filter_eq_length_eq_one a second.edges h)
    have h2 : (first.edges.filter fun e => decide (¬(second.get_edge e).length = 1))
        = first.edges.filter fun e => decide (e ∉ second.edges) := by
      apply List.filter_congr
      intro a _
      exact decide_eq_decide.mpr (not_congr (filter_eq_length_eq_one a second.edges h))
    simp only [compare]
    rw [h1, h2]
  · decide

/-- C5 witness: the classification applied to the worked example's
graphs, whose candidate edge list is duplicate-free. -/
theorem c5_graph_triple_witness :
    compare gRef gCand =
      ((gRef.edges.filter fun e => decide (e ∈ gCand.edges)).length,
       (gCand.edges.length : ℤ) -
         ((gRef.edges.filter fun e => decide (e ∈ gCand.edges)).length : ℤ),
       (gRef.edges.filter fun e => decide (e ∉ gCand.edges)).length) :=
  c5_graph_triple.1 gRef gCand (by decide)

/-- A value never mismatches against itself when the tolerance is
positive: if it parses as a float the difference is zero, otherwise the
strings are identical. -/
theorem attrValueMismatch_self (v : String) (tol : ℚ) (h : 0 < tol) :
    attrValueMismatch v v tol = false := by
  cases h1 : pyFloat v
  · simp [attrValueMismatch, h1]
  · have hx : ¬tol ≤ (0 : ℚ) := not_le.mpr h
    simp [attrValueMismatch, h1, sub_self, abs_zero, hx]

/-- Zipping a list with itself pairs each element with itself. -/
theorem zip_self {α : Type} (l : List α) : l.zip l = l.map fun x => (x, x) := by
  induction l with
  | nil => rfl
  | cons x xs ih => simp [List.zip_cons_cons, ih]

/-- With a positive tolerance, an attribute list compares clean against
itself. -/
theorem compare_attrs_self (tol : ℚ) (h : 0 < tol) (a : List (String × String)) :
    compare_attrs tol a a = true := by
  unfold compare_attrs
  rw [zip_self, List.all_eq_true]
  intro p hp
  rcases List.mem_map.mp hp with ⟨x, _, rfl⟩
  simp [attrValueMismatch_self x.2 tol h]

mutual

/-- With a positive tolerance, every tree compares clean against
itself. -/
theorem compare_xml_trees_self (tol : ℚ) (h : 0 < tol) :
    ∀ t : XMLElem, compare_xml_trees tol t t = true
  | .node tg a c => by
    have hc := compare_children_self tol h c
    simp [compare_xml_trees, compare_attrs_self tol h a, hc]

/-- With a positive tolerance, every child list compares clean against
itself. -/
theorem compare_children_self (tol : ℚ) (h : 0 < tol) :
    ∀ l : List XMLElem, compare_children tol l l = true
  | [] => by simp [compare_children]
  | x :: xs => by
    have h1 := compare_xml_trees_self tol h x
    have h2 := compare_children_self tol h xs
    simp [compare_children, h1, h2]

end

/-- Default tolerance is positive. -/
theorem TOLERANCE_pos : 0 < TOLERANCE := by
  rw [TOLERANCE]; norm_num

/-- First child of the worked tree example: `child(x=1)`. -/
def exChildA : XMLElem := .node "child" [("x", "1")] []

/-- Second child of the worked tree example: `child(x=2)`. -/
def exChildB : XMLElem := .node "child" [("x", "2")] []

/-- Worked tree example: `root(a=1){ child(x=1), child(x=2) }`. -/
def exTree : XMLElem := .node "root" [("a", "1")] [exChildA, exChildB]

/-- Worked tree example with the two children swapped in order. -/
def exTreeSwapped : XMLElem := .node "root" [("a", "1")] [exChildB, exChildA]

/-- The tokens `1` and `2` both parse as floats and differ by at least
the default tolerance, so they mismatch. -/
theorem attrValueMismatch_one_two : attrValueMismatch "1" "2" TOLERANCE = true := by
  have habs : |(1 : ℚ) - 2| = 1 := by norm_num
  have hle : TOLERANCE ≤ |(1 : ℚ) - 2| := by rw [habs, TOLERANCE]; norm_num
  simp [attrValueMismatch, pyFloat_one, pyFloat_two, hle]

/-- The swapped children mismatch on the value of attribute `x`. -/
theorem compare_exChildA_exChildB :
    compare_xml_trees TOLERANCE exChildA exChildB = false := by
  simp [exChildA, exChildB, compare_xml_trees, compare_attrs, attrValueMismatch_one_two]

/-- C6: the tree comparator returns false whenever the two nodes' child
counts differ; when the node-level checks pass (same tag, same
attribute list, equal child counts) the result is exactly the
positional, index-aligned comparison of the children; and it is
order-sensitive: the worked tree compared against itself with the two
children swapped returns false, the swapped children's positional
comparison mismatches, the two child lists are a permutation of each
other, and the unswapped tree compares clean against itself. -/
theorem c6_order_sensitive :
    (∀ (tol : ℚ) (e1 e2 : XMLElem), e1.children.length ≠ e2.children.length →
      compare_xml_trees tol e1 e2 = false) ∧
    (∀ (tol : ℚ) (tg : String) (a : List (String × String)) (c1 c2 : List XMLElem),
      0 < tol → c1.length = c2.length →
      compare_xml_trees tol (.node tg a c1) (.node tg a c2) = compare_children tol c1 c2) ∧
    compare_xml_trees TOLERANCE exTree exTreeSwapped = false ∧
    compare_xml_trees TOLERANCE exChildA exChildB = false ∧
    exTreeSwapped.children.Perm exTree.children ∧
    compare_xml_trees TOLERANCE exTree exTree = true := by
  refine ⟨?_, ?_, ?_, compare_exChildA_exChildB, ?_, ?_⟩
  · intro tol e1 e2 hne
    cases e1 with
    | node t1 a1 c1 =>
    cases e2 with
    | node t2 a2 c2 =>
    simp only [XMLElem.children] at hne
    rw [compare_xml_trees]
    split_ifs <;> rfl
  · intro tol tg a c1 c2 htol hlen
    simp [compare_xml_trees, compare_attrs_self tol htol a, hlen]
  · have hA := attrValueMismatch_self "1" TOLERANCE TOLERANCE_pos
    simp [exTree, exTreeSwapped, exChildA, exChildB, compare_xml_trees, compare_children,
      compare_attrs, hA, attrValueMismatch_one_two]
  · simp only [exTree, exTreeSwapped, XMLElem.children]
    exact List.Perm.swap exChildA exChildB []
  · exact compare_xml_trees_self TOLERANCE TOLERANCE_pos exTree

/-- C6 witness: the child-count gate and the positional recursion applied
to concrete trees. -/
theorem c6_order_sensitive_witness :
    compare_xml_trees TOLERANCE exTree exChildA = false ∧
    compare_xml_trees TOLERANCE (.node "r" [] [exChildA]) (.node "r" [] [exChildB]) =
      compare_children TOLERANCE [exChildA] [exChildB] :=
  ⟨c6_order_sensitive.1 TOLERANCE exTree exChildA (by decide),
   c6_order_sensitive.2.1 TOLERANCE "r" [] [exChildA] [exChildB] TOLERANCE_pos rfl⟩

/-- The partition comparison loop runs clean on two identical dicts. -/
theorem compare_clusters_loop_self (p : List (String × String)) :
    compare_clusters_loop p p = (true, [], []) := by
  induction p with
  | nil => rfl
  | cons x xs ih =>
    rcases x with ⟨k, v⟩
    simp [compare_clusters_loop, dictPop, ih]

/-- A score never mismatches against itself when the tolerance is
positive. -/
theorem score_mismatch_self (s tol : ℚ) (h : 0 < tol) :
    score_mismatch s s tol = false := by
  simp only [score_mismatch, sub_self, abs_zero, decide_eq_false_iff_not, not_le]
  exact h

/-- The regulator comparison loop runs clean on two identical dicts when
the tolerance is positive. -/
theorem compare_regulators_loop_self (tol : ℚ) (h : 0 < tol)
    (p : List ((String × String) × ℚ)) :
    compare_regulators_loop tol p p = (true, [], []) := by
  induction p with
  | nil => rfl
  | cons x xs ih =>
    rcases x with ⟨k, s⟩
    simp [compare_regulators_loop, dictPop2, ih, score_mismatch_self s tol h]

/-- On a duplicate-free edge list, comparing a graph with itself counts
every edge as a true positive. -/
theorem compare_graph_self (g : PyGraph) (h : g.edges.Nodup) :
    compare g g = (g.edges.length, 0, 0) := by
  have h1 : (g.edges.filter fun e => decide ((g.get_edge e).length = 1)) = g.edges := by
    rw [List.filter_eq_self]
    intro a ha
    exact decide_eq_true ((filter_eq_length_eq_one a g.edges h).mpr ha)
  have h2 : (g.edges.filter fun e => decide (¬(g.get_edge e).length = 1)) = [] := by
    rw [List.filter_eq_nil_iff]
    intro a ha
    simp only [decide_not, Bool.not_eq_true', decide_eq_false_iff_not, not_not]
    exact (filter_eq_length_eq_one a g.edges h).mpr ha
  simp only [compare]
  rw [h1, h2]
  simp

/-- Every node of a graph is found when the graph is compared with
itself. -/
theorem nodeMismatches_self (g : PyGraph) : nodeMismatches g g = 0 := by
  unfold nodeMismatches
  rw [List.length_eq_zero, List.filter_eq_nil_iff]
  intro a ha h
  rw [List.isEmpty_iff] at h
  have hmem : a ∈ g.get_node a := by
    unfold PyGraph.get_node
    rw [List.mem_filter]
    exact ⟨ha, by simp⟩
  rw [h] at hmem
  exact absurd hmem (List.not_mem_nil a)

/-- C9: comparing any artifact with itself passes with no error lines,
for all four comparator kinds: partitions unconditionally, scored
assignments and trees for a positive tolerance, and graphs for a
duplicate-free edge list (where every edge is a true positive and no
node is missing). -/
theorem c9_reflexivity :
    (∀ p : List (String × String), compare_clusters p p = (true, [])) ∧
    (∀ (r : List ((String × String) × ℚ)) (tol : ℚ), 0 < tol →
      compare_regulators r r tol = (true, [])) ∧
    (∀ (tol : ℚ) (t : XMLElem), 0 < tol → compare_xml_trees tol t t = true) ∧
    (∀ g : PyGraph, g.edges.Nodup →
      compare g g = (g.edges.length, 0, 0) ∧ nodeMismatches g g = 0) := by
  refine ⟨?_, ?_, ?_, ?_⟩
  · intro p
    simp [compare_clusters, compare_clusters_loop_self]
  · intro r tol h
    simp [compare_regulators, compare_regulators_loop_self tol h]
  · intro tol t h
    exact compare_xml_trees_self tol h t
  · intro g h
    exact ⟨compare_graph_self g h, nodeMismatches_self g⟩

/-- C9 witness: reflexivity at one concrete artifact of each kind. -/
theorem c9_reflexivity_witness :
    compare_clusters [("g1", "A")] [("g1", "A")] = (true, []) ∧
    compare_regulators [(("R", "M1"), 0)] [(("R", "M1"), 0)] 1 = (true, []) ∧
    compare_xml_trees 1 exTree exTree = true ∧
    (compare gRef gRef = (gRef.edges.length, 0, 0) ∧ nodeMismatches gRef gRef = 0) :=
  ⟨c9_reflexivity.1 _, c9_reflexivity.2.1 _ 1 one_pos,
   c9_reflexivity.2.2.1 1 exTree one_pos, c9_reflexivity.2.2.2 gRef (by decide)⟩

/-- C4: a manifest entry with either declared output path absent gets a
WARNING-severity skip line and contributes `True` to the verdict (it can
never cause failure); and `main` raises its assertion exactly when some
non-skipped task's comparison returned `False` — if every processed
task matched or was skipped, `main` terminates without error. -/
theorem c4_skip_and_verdict :
    (∀ (cg cc cm : String → String → Bool)
      (outputs : List (String × Option String × Option String))
      (e : String × Option String × Option String), e ∈ outputs →
      e.2.1.isNone ∨ e.2.2.isNone →
      Warning.skippedTask e.1 ∈ skip_warnings outputs ∧
      Warning.severity (Warning.skippedTask e.1) = Severity.warning ∧
      run_task cg cc cm e.1 e.2.1 e.2.2 = true) ∧
    (∀ (cg cc cm : String → String → Bool)
      (outputs : List (String × Option String × Option String)),
      main_asserts cg cc cm outputs = Except.error assertMessage ↔
        ∃ e ∈ outputs, ¬(e.2.1.isNone ∨ e.2.2.isNone) ∧
          run_task cg cc cm e.1 e.2.1 e.2.2 = false) := by
  constructor
  · intro cg cc cm outputs e he hskip
    refine ⟨?_, rfl, ?_⟩
    · unfold skip_warnings
      refine List.mem_map.mpr ⟨e, List.mem_filter.mpr ⟨he, ?_⟩, rfl⟩
      rcases hskip with h | h <;> simp [h]
    · rcases e with ⟨t, o1, o2⟩
      cases o1 <;> cases o2 <;> simp_all [run_task]
  · intro cg cc cm outputs
    unfold main_asserts
    split_ifs with h
    · rw [main_loop, List.all_eq_true] at h
      constructor
      · intro hcontra
        exact absurd hcontra (by simp)
      · rintro ⟨e, he, -, hrt⟩
        have := h e he
        rw [hrt] at this
        cases this
    · constructor
      · intro _
        have h' : ¬∀ e ∈ outputs, run_task cg cc cm e.1 e.2.1 e.2.2 = true := by
          rw [← List.all_eq_true]
          exact h
        push_neg at h'
        obtain ⟨e, he, hrt⟩ := h'
        replace hrt : run_task cg cc cm e.1 e.2.1 e.2.2 = false := Bool.eq_false_iff.mpr hrt
        refine ⟨e, he, ?_, hrt⟩
        rcases e with ⟨t, o1, o2⟩
        cases o1 <;> cases o2 <;> simp_all [run_task]
      · intro _
        rfl

/-- Constant comparison function used for the dispatcher witnesses. -/
def cFalse : String → String → Bool := fun _ _ => false

/-- A one-stage manifest whose first output path is absent. -/
def outsSkip : List (String × Option String × Option String) := [("ganesh", none, some "b")]

/-- A one-stage manifest with both output paths present. -/
def outsFail : List (String × Option String × Option String) := [("ganesh", some "a", some "b")]

/-- C4 witness: the skip rule applied to a concrete skipped stage, and
the verdict rule instantiated on a concrete one-stage manifest. -/
theorem c4_skip_and_verdict_witness :
    (Warning.skippedTask "ganesh" ∈ skip_warnings outsSkip ∧
     Warning.severity (Warning.skippedTask "ganesh") = Severity.warning ∧
     run_task cFalse cFalse cFalse "ganesh" none (some "b") = true) ∧
    (main_asserts cFalse cFalse cFalse outsFail = Except.error assertMessage ↔
      ∃ e ∈ outsFail, ¬(e.2.1.isNone ∨ e.2.2.isNone) ∧
        run_task cFalse cFalse cFalse e.1 e.2.1 e.2.2 = false) :=
  ⟨c4_skip_and_verdict.1 cFalse cFalse cFalse outsSkip ("ganesh", none, some "b")
      (by simp [outsSkip]) (by simp),
   c4_skip_and_verdict.2 cFalse cFalse cFalse outsFail⟩

/-- Zipping truncates both lists to the shorter length. -/
theorem zip_take_min {α β : Type} (l1 : List α) (l2 : List β) :
    l1.zip l2 = (l1.take (min l1.length l2.length)).zip (l2.take (min l1.length l2.length)) := by
  induction l1 generalizing l2 with
  | nil => simp
  | cons x xs ih =>
    cases l2 with
    | nil => simp
    | cons y ys =>
      simp [Nat.succ_min_succ, List.zip_cons_cons, ih ys]

/-- C10: the stage manifests are paired positionally up to the shorter
configuration's length: the outputs and warnings of `read_task_outputs`
equal those of the inputs truncated to `min(m, n)`; config entries
appended past the shorter side's length change nothing (no warning, no
comparison); and the final verdict over the produced outputs is
unchanged. -/
theorem c10_zip_truncation (firstdir seconddir : String)
    (fc sc : List (String × TaskConfig)) :
    read_task_outputs firstdir seconddir fc sc =
      read_task_outputs firstdir seconddir
        (fc.take (min fc.length sc.length)) (sc.take (min fc.length sc.length)) ∧
    (∀ extra : List (String × TaskConfig), fc.length ≤ sc.length →
      read_task_outputs firstdir seconddir fc (sc ++ extra) =
        read_task_outputs firstdir seconddir fc sc) ∧
    (∀ cg cc cm : String → String → Bool,
      main_asserts cg cc cm (read_task_outputs firstdir seconddir fc sc).1 =
        main_asserts cg cc cm
          (read_task_outputs firstdir seconddir
            (fc.take (min fc.length sc.length)) (sc.take (min fc.length sc.length))).1) := by
  have hmain : read_task_outputs firstdir seconddir fc sc =
      read_task_outputs firstdir seconddir
        (fc.take (min fc.length sc.length)) (sc.take (min fc.length sc.length)) := by
    unfold read_task_outputs
    rw [← zip_take_min]
  refine ⟨hmain, ?_, fun cg cc cm => by rw [hmain]⟩
  intro extra hle
  unfold read_task_outputs
  congr 1
  rw [zip_take_min fc (sc ++ extra), zip_take_min fc sc]
  have h1 : min fc.length (sc ++ extra).length = fc.length := by
    rw [List.length_append]
    omega
  have h2 : min fc.length sc.length = fc.length := Nat.min_eq_left hle
  rw [h1, h2, List.take_length, List.take_append_of_le_length hle]

/-- A task configuration used by the manifest-truncation witness. -/
def cfg0 : TaskConfig := ⟨some "out", []⟩

/-- C10 witness: appending an extra stage to the longer side changes
nothing. -/
theorem c10_zip_truncation_witness :
    read_task_outputs "d1" "d2" [("t", cfg0)] ([("t", cfg0)] ++ [("u", cfg0)]) =
      read_task_outputs "d1" "d2" [("t", cfg0)] [("t", cfg0)] :=
  (c10_zip_truncation "d1" "d2" [("t", cfg0)] [("t", cfg0)]).2.1 [("u", cfg0)] (by decide)

end RamBLe
